import Mathlib

/-!
# Verification of the research-assistant nodes

A shallow embedding of the repository's two source modules
(`src/assistant/utils.py` and `src/assistant/nodes.py`) together with
theorems settling the specification's claims about them.

Conventions of the embedding:
* Python strings are `String`; an optional / possibly-missing value is
  `Option String` (`none` models both an absent key and an explicit `None`).
* Python's truthiness test `if not s:` on an optional string is
  `optStrFalsy` (true for `None` and for the empty string).
* A function that can raise returns `Except String α`; the `String` is the
  error message.  External collaborators (the DuckDuckGo provider, the Tavily
  client, the page fetcher, the local retriever) are passed in as function
  parameters whose result type records whether the call raised.
* `time.sleep` calls are recorded in an output trace (a `List Nat` of the
  slept durations) instead of actually sleeping.
-/

namespace Assistant

/-- Python truthiness of an optional string: `not s` is true when the value
is `None` or the empty string. -/
def optStrFalsy : Option String → Bool
  | none => true
  | some s => s.isEmpty

/-- One search result record, the common shape
`{title, url, content, raw_content}` produced by every provider.
`raw_content = none` models both a missing key and an explicit `None`. -/
structure Source where
  title : String
  url : String
  content : String
  raw_content : Option String
  deriving Repr, DecidableEq

/-- One element of a list passed to `deduplicate_and_format_sources`:
either a result-batch dict that contains a `'results'` key (so
`'results' in response` holds and `response['results']` is extended in), or
any other sequence, which the code extends in element-wise as if it were a
plain sequence of sources. -/
inductive BatchItem where
  | batch (results : List Source)
  | srcSeq (sources : List Source)
  deriving Repr, DecidableEq

/-- The dynamic input shape of `deduplicate_and_format_sources`: a dict
(whose `'results'` key may be absent, modelled by `none`), a list, or any
other Python value (`other`). -/
inductive SearchResponse where
  | dict (results : Option (List Source))
  | list (items : List BatchItem)
  | other
  deriving Repr, DecidableEq

/-- Lines 25–36 of `utils.py`: convert the input to one list of results.
A dict is indexed at `'results'` (raising `KeyError` when the key is
absent); a list is flattened, extending with `response['results']` for
batch dicts and with the element itself otherwise; anything else raises
`ValueError`. -/
def convertInput : SearchResponse → Except String (List Source)
  | .dict (some results) => .ok results
  | .dict none => .error "KeyError: 'results'"
  | .list items => .ok (items.foldl (fun acc item =>
      match item with
      | .batch results => acc ++ results
      | .srcSeq sources => acc ++ sources) [])
  | .other => .error "Input must be either a dict with 'results' or a list of search results"

/-- One step of the dedup loop (lines 40–42 of `utils.py`): insert `s` into
the ordered dict `acc` keyed by URL only if its URL is not yet present. -/
def insertSource (acc : List Source) (s : Source) : List Source :=
  if s.url ∈ acc.map Source.url then acc else acc ++ [s]

/-- Lines 38–42 of `utils.py`: deduplicate by URL, first occurrence wins.
Python dicts preserve insertion order, so the ordered list models
`unique_sources.values()`. -/
def dedupByUrl (sources : List Source) : List Source :=
  sources.foldl insertSource []

/-- Lines 51–59 of `utils.py`: the raw-content string rendered for one
source when `include_raw_content` is set.  A missing or `None`
`raw_content` becomes the empty string; content longer than
`max_tokens_per_source * 4` characters is cut at that limit with
`"... [truncated]"` appended. -/
def limitRawContent (maxTokensPerSource : Nat) (raw : Option String) : String :=
  let charLimit := maxTokensPerSource * 4
  let rawContent := raw.getD ""
  if rawContent.length > charLimit then
    rawContent.take charLimit ++ "... [truncated]"
  else
    rawContent

/-- Lines 46–60 of `utils.py`: the text appended to `formatted_text` for one
deduplicated source. -/
def sourceBlock (maxTokensPerSource : Nat) (includeRawContent : Bool) (s : Source) : String :=
  "Source " ++ s.title ++ ":\n===\n" ++
  "URL: " ++ s.url ++ "\n===\n" ++
  "Most relevant content from source: " ++ s.content ++ "\n===\n" ++
  (if includeRawContent then
    "Full source content limited to " ++ toString maxTokensPerSource ++ " tokens: " ++
      limitRawContent maxTokensPerSource s.raw_content ++ "\n\n"
  else "")

/-- Python's `str.strip()`: remove leading and trailing whitespace. -/
def pyStrip (s : String) : String :=
  ⟨((s.data.dropWhile Char.isWhitespace).reverse.dropWhile Char.isWhitespace).reverse⟩

/-- `deduplicate_and_format_sources` (lines 11–62 of `utils.py`): convert
the input to one list of sources, deduplicate by URL keeping the first
occurrence, render each survivor as a block and strip the final string. -/
def deduplicate_and_format_sources (searchResponse : SearchResponse)
    (maxTokensPerSource : Nat) (includeRawContent : Bool := false) :
    Except String String :=
  (convertInput searchResponse).map fun sourcesList =>
    pyStrip ("Sources:\n\n" ++
      String.join ((dedupByUrl sourcesList).map (sourceBlock maxTokensPerSource includeRawContent)))

/-- `format_sources` (lines 64–76 of `utils.py`). -/
def format_sources (results : List Source) : String :=
  String.intercalate "\n" (results.map fun s => "* " ++ s.title ++ " : " ++ s.url)

/-! ## duckduckgo_search -/

/-- One raw record from `ddgs.text(...)`: a dict whose `'href'`, `'title'`
and `'body'` keys may each be absent or empty. -/
structure DDGRecord where
  title : Option String
  href : Option String
  body : Option String
  deriving Repr, DecidableEq

/-- The outcome of one `ddgs.text(query, max_results=...)` call: either the
list of records, or a raised exception with its message `str(e)`. -/
inductive DDGOutcome where
  | ok (records : List DDGRecord)
  | exn (msg : String)
  deriving Repr, DecidableEq

/-- Substring containment on character lists: `pat` occurs in the list
when it is a prefix of it or occurs in its tail (so the empty pattern
occurs everywhere, like Python's `"" in s`). -/
def charsContain (pat : List Char) : List Char → Bool
  | [] => pat.isEmpty
  | c :: cs => pat.isPrefixOf (c :: cs) || charsContain pat cs

/-- Line 141 of `utils.py`: the check `"Ratelimit" in str(e)`. -/
def containsRatelimit (msg : String) : Bool :=
  charsContain "Ratelimit".data msg.data

/-- Line 110 of `utils.py`: `not all([url, title, content])` skips a record
whose `href`, `title` or `body` is missing or empty. -/
def recordComplete (r : DDGRecord) : Bool :=
  !optStrFalsy r.href && !optStrFalsy r.title && !optStrFalsy r.body

/-- Lines 105–136 of `utils.py` for one record: skip incomplete records;
otherwise `raw_content` is the snippet, except that with
`fetch_full_page=True` a successful page fetch replaces it with the fetched
text (a failed fetch falls back to the snippet). -/
def processRecord (fetchFullPage : Bool) (fetcher : String → Except String String)
    (r : DDGRecord) : Option Source :=
  if recordComplete r then
    let url := r.href.getD ""
    let title := r.title.getD ""
    let content := r.body.getD ""
    let rawContent :=
      if fetchFullPage then
        match fetcher url with
        | .ok text => text
        | .error _ => content
      else content
    some ⟨title, url, content, some rawContent⟩
  else none

/-- The result-building loop of lines 102–136: append the converted record
for every complete provider record, in order. -/
def processResults (fetchFullPage : Bool) (fetcher : String → Except String String)
    (records : List DDGRecord) : List Source :=
  records.foldl (fun acc r =>
    match processRecord fetchFullPage fetcher r with
    | some s => acc ++ [s]
    | none => acc) []

/-- Line 96: `max_retries = 3`. -/
def max_retries : Nat := 3

/-- The value returned by `duckduckgo_search` (`{"results": results}`)
together with the trace of `time.sleep(retry_delay)` calls made on the
way. -/
structure DDGReturn where
  results : List Source
  sleeps : List Nat
  deriving Repr, DecidableEq

/-- The retry loop of lines 99–151 of `utils.py`.  `fuel` is the number of
loop iterations `range(max_retries)` still to run; `attempt` the current
index; `delay` the current `retry_delay`.  A successful provider call
returns the processed results; a raised exception retries (sleeping
`delay`, then doubling it) only when its message contains `"Ratelimit"`
and `attempt < max_retries - 1`, and otherwise returns empty results. -/
def duckduckgoAttempts (provider : Nat → DDGOutcome) (fetchFullPage : Bool)
    (fetcher : String → Except String String) :
    Nat → Nat → Nat → List Nat → DDGReturn
  | 0, _, _, sleeps => ⟨[], sleeps⟩
  | fuel + 1, attempt, delay, sleeps =>
    match provider attempt with
    | .ok records => ⟨processResults fetchFullPage fetcher records, sleeps⟩
    | .exn msg =>
      if containsRatelimit msg && decide (attempt < max_retries - 1) then
        duckduckgoAttempts provider fetchFullPage fetcher fuel (attempt + 1) (delay * 2)
          (sleeps ++ [delay])
      else ⟨[], sleeps⟩

/-- `duckduckgo_search` (lines 79–151 of `utils.py`).  The external
provider is abstracted as `provider : Nat → DDGOutcome`, giving the outcome
of the `ddgs.text(query, max_results=...)` call made on each attempt, and
the page fetcher (used only with `fetch_full_page=True`) as
`fetcher`.  The initial `retry_delay` is 2 (line 97). -/
def duckduckgo_search (provider : Nat → DDGOutcome) (fetchFullPage : Bool := false)
    (fetcher : String → Except String String := fun _ => .error "no fetcher") : DDGReturn :=
  duckduckgoAttempts provider fetchFullPage fetcher max_retries 0 2 []

/-! ## tavily_search -/

/-- A process environment: variable name to value, `none` when unset. -/
def Env := String → Option String

/-- `tavily_search` (lines 153–176 of `utils.py`).  The Tavily client is
abstracted as `client query max_results include_raw_content`, the response
of one `tavily_client.search(...)` call.  `if not api_key:` raises
`ValueError` when the variable is unset or empty; otherwise the single
synchronous client call's response is returned. -/
def tavily_search (env : Env) (client : String → Nat → Bool → List Source)
    (query : String) (includeRawContent : Bool := true) (maxResults : Nat := 3) :
    Except String (List Source) :=
  let apiKey := env "TAVILY_API_KEY"
  if optStrFalsy apiKey then
    .error "TAVILY_API_KEY environment variable is not set"
  else
    .ok (client query maxResults includeRawContent)

/-! ## perplexity_search -/

/-- The parsed JSON body of a successful (2xx) Perplexity response:
`choices[0].message.content` and the optional `citations` list (`none`
when the key is absent). -/
structure PerplexityResponse where
  content : String
  citations : Option (List String)
  deriving Repr, DecidableEq

/-- The title `f"Perplexity Search {loop_count + 1}, Source {n}"`. -/
def perplexityTitle (loopCount n : Nat) : String :=
  "Perplexity Search " ++ toString (loopCount + 1) ++ ", Source " ++ toString n

/-- `perplexity_search` (lines 178–246 of `utils.py`), after the HTTP layer:
given the parsed body of a 2xx response, apply the citations default
`["https://perplexity.ai"]`, emit the first citation with the full answer
content, then one placeholder entry per remaining citation, titled with
1-based indices.  `citations[0]` on an empty citations list raises
`IndexError`. -/
def perplexity_search (loopCount : Nat) (resp : PerplexityResponse) :
    Except String (List Source) :=
  let citations := resp.citations.getD ["https://perplexity.ai"]
  match citations with
  | [] => .error "IndexError: list index out of range"
  | c0 :: rest =>
    .ok (⟨perplexityTitle loopCount 1, c0, resp.content, some resp.content⟩ ::
      (List.enumFrom 2 rest).map fun ic =>
        ⟨perplexityTitle loopCount ic.1, ic.2, "See above for full content", none⟩)

/-! ## local_rag_node -/

/-- Modelled from the spec: `SummaryState` (its module
`src/assistant/state.py` is not among the source files; spec section 3
gives the record's fields and defaults). -/
structure SummaryState where
  research_topic : Option String := none
  search_query : Option String := none
  web_research_results : List String := []
  sources_gathered : List String := []
  research_loop_count : Nat := 0
  running_summary : Option String := none
  local_context : String := ""

/-- A document returned by the retriever capability; only `page_content`
is read. -/
structure Document where
  page_content : String
  deriving Repr, DecidableEq

/-- The partial state update `{"local_context": ...}` returned by the
node. -/
structure LocalContextUpdate where
  local_context : String
  deriving Repr, DecidableEq

/-- `local_rag_node` (lines 10–33 of `nodes.py`).  The module-level
retriever is abstracted as `retrieve : String → Except String (List
Document)`, the outcome of `retriever.invoke(query)`.  An empty or absent
`search_query` short-circuits to an empty context; an exception from the
retriever is caught and also yields an empty context; otherwise the
documents' `page_content` strings are joined with `"\n\n"`. -/
def local_rag_node (retrieve : String → Except String (List Document))
    (state : SummaryState) : LocalContextUpdate :=
  if optStrFalsy state.search_query then ⟨""⟩
  else
    match retrieve (state.search_query.getD "") with
    | .ok docs => ⟨String.intercalate "\n\n" (docs.map Document.page_content)⟩
    | .error _ => ⟨""⟩

/-! ## Auxiliary definitions for stating the claims -/

/-- The accepted input shapes of `deduplicate_and_format_sources` as the
spec phrases them: "either a single result-batch dict with a `'results'`
key or a sequence of such batches".  Stated from the spec's words, to be
compared against what the code accepts. -/
def matchesAcceptedShape : SearchResponse → Bool
  | .dict results => results.isSome
  | .list items => items.all fun item =>
      match item with
      | .batch _ => true
      | .srcSeq _ => false
  | .other => false

/-- The source entry built (lines 130–135 of `utils.py`) from a complete
provider record when `fetch_full_page` is false: `raw_content` is the
snippet. -/
def completeToSource (r : DDGRecord) : Source :=
  ⟨r.title.getD "", r.href.getD "", r.body.getD "", some (r.body.getD "")⟩

/-! ## Lemmas about URL deduplication -/

/-- Recursive reformulation of the dedup loop: `seen` is the list of URLs
already present in the accumulator. -/
def dedupRec (seen : List String) : List Source → List Source
  | [] => []
  | s :: rest =>
    if s.url ∈ seen then dedupRec seen rest
    else s :: dedupRec (seen ++ [s.url]) rest

theorem foldl_insertSource_eq (l : List Source) :
    ∀ acc : List Source, l.foldl insertSource acc = acc ++ dedupRec (acc.map Source.url) l := by
  induction l with
  | nil => intro acc; simp [dedupRec]
  | cons s rest ih =>
    intro acc
    rw [List.foldl_cons]
    by_cases h : s.url ∈ acc.map Source.url
    · rw [show insertSource acc s = acc by simp [insertSource, h], ih]
      simp [dedupRec, h]
    · rw [show insertSource acc s = acc ++ [s] by simp [insertSource, h], ih]
      simp [dedupRec, h, List.map_append]

theorem dedupByUrl_eq_dedupRec (l : List Source) : dedupByUrl l = dedupRec [] l := by
  simpa [dedupByUrl] using foldl_insertSource_eq l []

theorem dedupRec_sublist (l : List Source) : ∀ seen, List.Sublist (dedupRec seen l) l := by
  induction l with
  | nil => intro seen; simp [dedupRec]
  | cons s rest ih =>
    intro seen
    by_cases h : s.url ∈ seen
    · rw [show dedupRec seen (s :: rest) = dedupRec seen rest by simp [dedupRec, h]]
      exact (ih seen).cons s
    · rw [show dedupRec seen (s :: rest) = s :: dedupRec (seen ++ [s.url]) rest by
        simp [dedupRec, h]]
      exact (ih _).cons₂ s

theorem dedupRec_mem_url (l : List Source) :
    ∀ seen u, u ∈ (dedupRec seen l).map Source.url → u ∉ seen := by
  induction l with
  | nil => intro seen u h; simp [dedupRec] at h
  | cons s rest ih =>
    intro seen u h
    by_cases hs : s.url ∈ seen
    · exact ih seen u (by simpa [dedupRec, hs] using h)
    · simp only [dedupRec, hs, if_neg, ite_false, List.map_cons, List.mem_cons] at h
      rcases h with h | h
      · exact fun hc => hs (h ▸ hc)
      · exact fun hc => ih (seen ++ [s.url]) u h (List.mem_append_left _ hc)

theorem dedupRec_urls_nodup (l : List Source) :
    ∀ seen, ((dedupRec seen l).map Source.url).Nodup := by
  induction l with
  | nil => intro seen; simp [dedupRec]
  | cons s rest ih =>
    intro seen
    by_cases hs : s.url ∈ seen
    · simpa [dedupRec, hs] using ih seen
    · rw [show dedupRec seen (s :: rest) = s :: dedupRec (seen ++ [s.url]) rest by
        simp [dedupRec, hs]]
      rw [List.map_cons, List.nodup_cons]
      exact ⟨fun hmem => dedupRec_mem_url rest _ s.url hmem (by simp), ih _⟩

theorem dedupRec_find? (l : List Source) :
    ∀ seen (u : String), u ∉ seen →
      (dedupRec seen l).find? (fun s => s.url == u) = l.find? (fun s => s.url == u) := by
  induction l with
  | nil => intro _ _ _; rfl
  | cons s rest ih =>
    intro seen u hu
    by_cases hs : s.url ∈ seen
    · have hne : ¬ ((fun s => s.url == u) s = true) := by
        simp only [beq_iff_eq]; intro h; exact hu (h ▸ hs)
      rw [show dedupRec seen (s :: rest) = dedupRec seen rest by simp [dedupRec, hs]]
      rw [ih seen u hu, @List.find?_cons_of_neg _ (fun s => s.url == u) s rest hne]
    · rw [show dedupRec seen (s :: rest) = s :: dedupRec (seen ++ [s.url]) rest by
        simp [dedupRec, hs]]
      by_cases hequ : s.url = u
      · rw [@List.find?_cons_of_pos _ (fun s => s.url == u) s (dedupRec (seen ++ [s.url]) rest)
            (by simp [hequ]),
          @List.find?_cons_of_pos _ (fun s => s.url == u) s rest (by simp [hequ])]
      · have hu' : u ∉ seen ++ [s.url] := by
          intro h
          rcases List.mem_append.mp h with h | h
          · exact hu h
          · exact hequ (List.mem_singleton.mp h).symm
        rw [@List.find?_cons_of_neg _ (fun s => s.url == u) s (dedupRec (seen ++ [s.url]) rest)
            (by simp [hequ]),
          @List.find?_cons_of_neg _ (fun s => s.url == u) s rest (by simp [hequ])]
        exact ih _ u hu'

/-! ## Claim theorems -/

/-- C1: for every input accepted by `deduplicate_and_format_sources` (a
single result-batch dict, or a sequence of batches, possibly with
duplicate `url` values) flattening to source list `l`, the deduplicated
list the formatter renders has each unique URL exactly once, its surviving
entry for each URL is the first-encountered one, the unique sources stand
in order of first appearance (a sublist of the input), and the returned
formatted string is exactly the rendering of that deduplicated list. -/
theorem dedup_format_unique_first_in_order (resp : SearchResponse)
    (maxTokensPerSource : Nat) (includeRawContent : Bool) (l : List Source)
    (h : convertInput resp = .ok l) :
    ((dedupByUrl l).map Source.url).Nodup ∧
    List.Sublist (dedupByUrl l) l ∧
    (∀ u : String, (dedupByUrl l).find? (fun s => s.url == u) =
      l.find? (fun s => s.url == u)) ∧
    deduplicate_and_format_sources resp maxTokensPerSource includeRawContent =
      .ok (pyStrip ("Sources:\n\n" ++
        String.join ((dedupByUrl l).map (sourceBlock maxTokensPerSource includeRawContent)))) := by
  refine ⟨?_, ?_, ?_, ?_⟩
  · rw [dedupByUrl_eq_dedupRec]; exact dedupRec_urls_nodup l []
  · rw [dedupByUrl_eq_dedupRec]; exact dedupRec_sublist l []
  · intro u; rw [dedupByUrl_eq_dedupRec]; exact dedupRec_find? l [] u (by simp)
  · simp only [deduplicate_and_format_sources, h, Except.map]

/-- A sequence of two batches whose sources repeat the URL `u1`. -/
def dupResponse : SearchResponse :=
  .list [.batch [⟨"T1", "u1", "c1", none⟩, ⟨"T2", "u1", "c2", none⟩],
         .batch [⟨"T3", "u2", "c3", none⟩]]

/-- The flattened source list of `dupResponse`. -/
def dupSources : List Source :=
  [⟨"T1", "u1", "c1", none⟩, ⟨"T2", "u1", "c2", none⟩, ⟨"T3", "u2", "c3", none⟩]

/-- Witness for C1 at a concrete duplicate-bearing input. -/
theorem dedup_format_unique_first_in_order_witness :
    ((dedupByUrl dupSources).map Source.url).Nodup ∧
    List.Sublist (dedupByUrl dupSources) dupSources ∧
    (∀ u : String, (dedupByUrl dupSources).find? (fun s => s.url == u) =
      dupSources.find? (fun s => s.url == u)) ∧
    deduplicate_and_format_sources dupResponse 2 false =
      .ok (pyStrip ("Sources:\n\n" ++
        String.join ((dedupByUrl dupSources).map (sourceBlock 2 false)))) :=
  dedup_format_unique_first_in_order dupResponse 2 false dupSources rfl

/-- Counterexample to C4 as stated: the input `[[{url: "u", ...}]]` — a
list whose single element is a plain sequence of sources, not a
result-batch dict — matches neither accepted shape, yet
`deduplicate_and_format_sources` does not fail on it: line 34 of
`utils.py` extends the flat list with the element itself, so the sources
are formatted normally. -/
theorem dedup_format_shape_counterexample :
    matchesAcceptedShape (.list [.srcSeq [⟨"T", "u", "c", none⟩]]) = false ∧
    deduplicate_and_format_sources (.list [.srcSeq [⟨"T", "u", "c", none⟩]]) 1 false =
      .ok "Sources:\n\nSource T:\n===\nURL: u\n===\nMost relevant content from source: c\n===" := by
  exact ⟨rfl, rfl⟩

/-- C4 (amended): `deduplicate_and_format_sources` fails exactly when its
input is neither a dict nor a list: a non-dict non-list input raises the
shape `ValueError`, and a dict lacking the `'results'` key raises a
`KeyError`; a list input never fails the shape conversion, whatever its
elements are — elements that are not result-batch dicts are flattened in
as sequences of sources. -/
theorem dedup_format_error_iff_not_dict_or_list (resp : SearchResponse)
    (maxTokensPerSource : Nat) (includeRawContent : Bool) :
    (∃ msg, deduplicate_and_format_sources resp maxTokensPerSource includeRawContent =
      .error msg) ↔ (resp = .other ∨ resp = .dict none) := by
  cases resp with
  | dict o =>
    cases o with
    | none => simp [deduplicate_and_format_sources, convertInput, Except.map]
    | some l => simp [deduplicate_and_format_sources, convertInput, Except.map]
  | list items => simp [deduplicate_and_format_sources, convertInput, Except.map]
  | other => simp [deduplicate_and_format_sources, convertInput, Except.map]

/-- C5: with `include_raw_content=true`, the raw-content text rendered by
`deduplicate_and_format_sources` (the string `limitRawContent` that
`sourceBlock` splices after "Full source content limited to ... tokens:")
is cut to exactly `max_tokens_per_source * 4` characters with
`"... [truncated]"` appended when the raw content is longer than that cap,
and is the raw content unmodified when it is at most the cap. -/
theorem raw_content_truncation (maxTokensPerSource : Nat) (raw : String) :
    (raw.length > maxTokensPerSource * 4 →
      limitRawContent maxTokensPerSource (some raw) =
        raw.take (maxTokensPerSource * 4) ++ "... [truncated]") ∧
    (raw.length ≤ maxTokensPerSource * 4 →
      limitRawContent maxTokensPerSource (some raw) = raw) ∧
    (∀ title url content : String,
      sourceBlock maxTokensPerSource true ⟨title, url, content, some raw⟩ =
        "Source " ++ title ++ ":\n===\n" ++ "URL: " ++ url ++ "\n===\n" ++
        "Most relevant content from source: " ++ content ++ "\n===\n" ++
        ("Full source content limited to " ++ toString maxTokensPerSource ++ " tokens: " ++
          limitRawContent maxTokensPerSource (some raw) ++ "\n\n")) := by
  refine ⟨fun h => ?_, fun h => ?_, fun _ _ _ => rfl⟩
  · simp [limitRawContent, h]
  · simp [limitRawContent, show ¬ raw.length > maxTokensPerSource * 4 by omega]

/-- Witness for C5: with `max_tokens_per_source = 1` a ten-character raw
content is cut to 4 characters plus the marker, and a four-character one
is untouched. -/
theorem raw_content_truncation_witness :
    limitRawContent 1 (some "abcdefghij") = "abcd... [truncated]" ∧
    limitRawContent 1 (some "abcd") = "abcd" :=
  ⟨((raw_content_truncation 1 "abcdefghij").1 (by decide)).trans rfl,
   (raw_content_truncation 1 "abcd").2.1 (by decide)⟩

theorem duckduckgoAttempts_succ (provider : Nat → DDGOutcome) (fetchFullPage : Bool)
    (fetcher : String → Except String String) (fuel attempt delay : Nat) (sleeps : List Nat) :
    duckduckgoAttempts provider fetchFullPage fetcher (fuel + 1) attempt delay sleeps =
      (match provider attempt with
      | .ok records => ⟨processResults fetchFullPage fetcher records, sleeps⟩
      | .exn msg =>
        if containsRatelimit msg && decide (attempt < max_retries - 1) then
          duckduckgoAttempts provider fetchFullPage fetcher fuel (attempt + 1) (delay * 2)
            (sleeps ++ [delay])
        else ⟨[], sleeps⟩) := rfl

/-- C2: `duckduckgo_search` retries a rate-limit-class provider error with
up to `max_retries = 3` attempts in total, sleeping the current delay
before each retry and doubling it from the initial 2; when the provider
raises a rate-limit error on the first two attempts and succeeds on the
third, the processed successful result set is returned, after sleeps of 2
then 4 time-units. -/
theorem duckduckgo_retries_on_ratelimit (provider : Nat → DDGOutcome) (fetchFullPage : Bool)
    (fetcher : String → Except String String) (m0 m1 : String) (recs : List DDGRecord)
    (h0 : provider 0 = .exn m0) (hr0 : containsRatelimit m0 = true)
    (h1 : provider 1 = .exn m1) (hr1 : containsRatelimit m1 = true)
    (h2 : provider 2 = .ok recs) :
    duckduckgo_search provider fetchFullPage fetcher =
      ⟨processResults fetchFullPage fetcher recs, [2, 4]⟩ := by
  show duckduckgoAttempts provider fetchFullPage fetcher (2 + 1) 0 2 [] = _
  rw [duckduckgoAttempts_succ, h0]
  simp only [hr0, max_retries]
  norm_num
  show duckduckgoAttempts provider fetchFullPage fetcher (1 + 1) 1 (2 * 2) [2] = _
  rw [duckduckgoAttempts_succ, h1]
  simp only [hr1, max_retries]
  norm_num
  show duckduckgoAttempts provider fetchFullPage fetcher (0 + 1) 2 (2 * 2 * 2) [2, 4] = _
  rw [duckduckgoAttempts_succ, h2]

/-- The provider behaviour of the spec's test: a rate-limit error twice,
then success. -/
def ratelimitTwiceProvider : Nat → DDGOutcome
  | 0 => .exn "202 Ratelimit"
  | 1 => .exn "DuckDuckGo 202 Ratelimit again"
  | _ => .ok [⟨some "t", some "u", some "b"⟩]

/-- Witness for C2 at the concrete provider that rate-limits twice then
succeeds. -/
theorem duckduckgo_retries_on_ratelimit_witness :
    duckduckgo_search ratelimitTwiceProvider false (fun _ => .error "no fetcher") =
      ⟨[⟨"t", "u", "b", some "b"⟩], [2, 4]⟩ :=
  (duckduckgo_retries_on_ratelimit ratelimitTwiceProvider false (fun _ => .error "no fetcher")
    "202 Ratelimit" "DuckDuckGo 202 Ratelimit again" [⟨some "t", some "u", some "b"⟩]
    rfl (by decide) rfl (by decide) rfl).trans rfl

/-- C3: when the provider raises a non-rate-limit exception on the first
attempt, `duckduckgo_search` returns empty results at once — no retry is
made (the sleep trace is empty) and, the function being total on provider
outcomes, the exception is never re-raised to the caller. -/
theorem duckduckgo_aborts_on_other_error (provider : Nat → DDGOutcome) (fetchFullPage : Bool)
    (fetcher : String → Except String String) (msg : String)
    (h0 : provider 0 = .exn msg) (hr : containsRatelimit msg = false) :
    duckduckgo_search provider fetchFullPage fetcher = ⟨[], []⟩ := by
  show duckduckgoAttempts provider fetchFullPage fetcher (2 + 1) 0 2 [] = _
  rw [duckduckgoAttempts_succ, h0]
  simp [hr]

/-- Witness for C3 at a provider raising a permanent (non-rate-limit)
error. -/
theorem duckduckgo_aborts_on_other_error_witness :
    duckduckgo_search (fun _ => .exn "connection refused") false (fun _ => .error "no fetcher") =
      ⟨[], []⟩ :=
  duckduckgo_aborts_on_other_error (fun _ => .exn "connection refused") false
    (fun _ => .error "no fetcher") "connection refused" rfl (by decide)

/-- C6: on a successful Perplexity response with answer content `c` and
citation list `u1 :: rest` (with `["https://perplexity.ai"]` substituted
when the key is absent), the returned results list has exactly as many
entries as citations; the first carries `c` as both `content` and
`raw_content` with url `u1`; every later entry `i ≥ 2` (1-indexed)
carries url `u(i)`, the placeholder content and a null `raw_content`; and
every title is "Perplexity Search {loop_count+1}, Source {i}". -/
theorem perplexity_results_shape (loopCount : Nat) (content c0 : String)
    (rest : List String) :
    ∃ rs, perplexity_search loopCount ⟨content, some (c0 :: rest)⟩ = .ok rs ∧
      rs.length = (c0 :: rest).length ∧
      rs[0]? = some ⟨perplexityTitle loopCount 1, c0, content, some content⟩ ∧
      (∀ j u, rest[j]? = some u →
        rs[j + 1]? = some ⟨perplexityTitle loopCount (j + 2), u,
          "See above for full content", none⟩) ∧
      perplexity_search loopCount ⟨content, none⟩ =
        .ok [⟨perplexityTitle loopCount 1, "https://perplexity.ai", content, some content⟩] := by
  refine ⟨_, rfl, ?_, by simp, ?_, rfl⟩
  · simp [List.enumFrom_length]
  · intro j u hj
    rw [List.getElem?_cons_succ, List.getElem?_map, List.getElem?_enumFrom, hj]
    simp [Nat.add_comm]

/-- Witness for C6 at a concrete three-citation response. -/
theorem perplexity_results_shape_witness :
    ∃ rs, perplexity_search 0 ⟨"answer", some ("u1" :: ["u2", "u3"])⟩ = .ok rs ∧
      rs.length = ("u1" :: ["u2", "u3"]).length ∧
      rs[0]? = some ⟨perplexityTitle 0 1, "u1", "answer", some "answer"⟩ ∧
      (∀ j u, ["u2", "u3"][j]? = some u →
        rs[j + 1]? = some ⟨perplexityTitle 0 (j + 2), u,
          "See above for full content", none⟩) ∧
      perplexity_search 0 ⟨"answer", none⟩ =
        .ok [⟨perplexityTitle 0 1, "https://perplexity.ai", "answer", some "answer"⟩] :=
  perplexity_results_shape 0 "answer" "u1" ["u2", "u3"]

/-- C7: on a state whose `search_query` is set and non-empty, if the
retriever capability raises on invocation, `local_rag_node` catches the
exception and returns `{"local_context": ""}`; the node is total on
retriever outcomes, so the exception never reaches the caller. -/
theorem local_rag_node_recovers_on_error (retrieve : String → Except String (List Document))
    (state : SummaryState) (e : String)
    (hq : optStrFalsy state.search_query = false)
    (he : retrieve (state.search_query.getD "") = .error e) :
    local_rag_node retrieve state = ⟨""⟩ := by
  simp [local_rag_node, hq, he]

/-- Witness for C7 at a retriever that always raises. -/
theorem local_rag_node_recovers_on_error_witness :
    local_rag_node (fun _ => .error "boom") { search_query := some "test query" } = ⟨""⟩ :=
  local_rag_node_recovers_on_error (fun _ => .error "boom")
    { search_query := some "test query" } "boom" rfl rfl

/-- C8: on a state whose `search_query` is set and non-empty, when the
retriever returns a list of documents, `local_rag_node` returns the
documents' `page_content` strings joined in order with a blank-line
separator. -/
theorem local_rag_node_joins_documents (retrieve : String → Except String (List Document))
    (state : SummaryState) (docs : List Document)
    (hq : optStrFalsy state.search_query = false)
    (hd : retrieve (state.search_query.getD "") = .ok docs) :
    local_rag_node retrieve state =
      ⟨String.intercalate "\n\n" (docs.map Document.page_content)⟩ := by
  simp [local_rag_node, hq, hd]

/-- Witness for C8: the spec's concrete example, two documents with
contents "Test content 1" and "Test content 2" under the query
"test query". -/
theorem local_rag_node_joins_documents_witness :
    local_rag_node (fun _ => .ok [⟨"Test content 1"⟩, ⟨"Test content 2"⟩])
      { search_query := some "test query" } = ⟨"Test content 1\n\nTest content 2"⟩ :=
  (local_rag_node_joins_documents (fun _ => .ok [⟨"Test content 1"⟩, ⟨"Test content 2"⟩])
    { search_query := some "test query" } [⟨"Test content 1"⟩, ⟨"Test content 2"⟩]
    rfl rfl).trans rfl

/-- A concrete Tavily client stub returning one fixed result. -/
def tavilyStubClient : String → Nat → Bool → List Source :=
  fun _ _ _ => [⟨"T", "u", "c", some "r"⟩]

/-- An environment in which `TAVILY_API_KEY` is present but set to the
empty string. -/
def envWithEmptyTavilyKey : Env :=
  fun k => if k = "TAVILY_API_KEY" then some "" else none

/-- Counterexample to C9 as stated: in an environment where
`TAVILY_API_KEY` is present but equal to the empty string — so the
credential is not absent — `tavily_search` still raises the configuration
error, because line 171 of `utils.py` tests Python truthiness
(`if not api_key:`), which an empty string also fails. -/
theorem tavily_error_despite_present_key :
    envWithEmptyTavilyKey "TAVILY_API_KEY" = some "" ∧
    tavily_search envWithEmptyTavilyKey tavilyStubClient "q" true 3 =
      .error "TAVILY_API_KEY environment variable is not set" :=
  ⟨rfl, rfl⟩

/-- C9 (amended): `tavily_search` raises the configuration error, not
caught locally, exactly when the `TAVILY_API_KEY` credential is absent
from the environment or set to the empty string; when it is present and
non-empty the function returns the response of the single synchronous
provider call, with no retry. -/
theorem tavily_error_iff_key_falsy (env : Env) (client : String → Nat → Bool → List Source)
    (query : String) (includeRawContent : Bool) (maxResults : Nat) :
    (optStrFalsy (env "TAVILY_API_KEY") = true →
      tavily_search env client query includeRawContent maxResults =
        .error "TAVILY_API_KEY environment variable is not set") ∧
    (optStrFalsy (env "TAVILY_API_KEY") = false →
      tavily_search env client query includeRawContent maxResults =
        .ok (client query maxResults includeRawContent)) :=
  ⟨fun h => by simp [tavily_search, h], fun h => by simp [tavily_search, h]⟩

/-- Witness for C9 (amended): with the key set to a non-empty value the
single client call's response is returned; with the key unset the
configuration error is raised. -/
theorem tavily_error_iff_key_falsy_witness :
    tavily_search (fun k => if k = "TAVILY_API_KEY" then some "tvly-key" else none)
      tavilyStubClient "q" true 3 = .ok (tavilyStubClient "q" 3 true) ∧
    tavily_search (fun _ => none) tavilyStubClient "q" true 3 =
      .error "TAVILY_API_KEY environment variable is not set" :=
  ⟨(tavily_error_iff_key_falsy (fun k => if k = "TAVILY_API_KEY" then some "tvly-key" else none)
      tavilyStubClient "q" true 3).2 rfl,
   (tavily_error_iff_key_falsy (fun _ => none) tavilyStubClient "q" true 3).1 rfl⟩

theorem processRecord_no_fetch (fetcher : String → Except String String) (r : DDGRecord) :
    processRecord false fetcher r =
      if recordComplete r then some (completeToSource r) else none := rfl

theorem processResults_eq_filterMap (fetchFullPage : Bool)
    (fetcher : String → Except String String) (records : List DDGRecord) :
    processResults fetchFullPage fetcher records =
      records.filterMap (processRecord fetchFullPage fetcher) := by
  suffices h : ∀ acc, records.foldl (fun acc r =>
      match processRecord fetchFullPage fetcher r with
      | some s => acc ++ [s]
      | none => acc) acc = acc ++ records.filterMap (processRecord fetchFullPage fetcher) by
    simpa [processResults] using h []
  induction records with
  | nil => intro acc; simp
  | cons r rest ih =>
    intro acc
    rw [List.foldl_cons]
    cases hpr : processRecord fetchFullPage fetcher r with
    | none => simp [hpr, ih, List.filterMap_cons]
    | some s => simp [hpr, ih, List.filterMap_cons]

theorem processResults_no_fetch (fetcher : String → Except String String)
    (records : List DDGRecord) :
    processResults false fetcher records =
      (records.filter recordComplete).map completeToSource := by
  rw [processResults_eq_filterMap]
  induction records with
  | nil => rfl
  | cons r rest ih =>
    rw [List.filterMap_cons, List.filter_cons, processRecord_no_fetch]
    by_cases hc : recordComplete r
    · simp [hc, ih]
    · simp [hc, ih]

/-- C10: on a successful `duckduckgo_search` call with
`fetch_full_page=false`, the returned results are exactly the complete
provider records converted in order — any record whose `href`, `title` or
`body` is missing or empty is excluded — and every returned entry's
`raw_content` equals its `content` (the snippet). -/
theorem duckduckgo_no_fetch_raw_is_snippet (provider : Nat → DDGOutcome)
    (fetcher : String → Except String String) (recs : List DDGRecord)
    (h : provider 0 = .ok recs) :
    duckduckgo_search provider false fetcher = ⟨processResults false fetcher recs, []⟩ ∧
    processResults false fetcher recs = (recs.filter recordComplete).map completeToSource ∧
    ∀ e ∈ (duckduckgo_search provider false fetcher).results,
      e.raw_content = some e.content := by
  have h1 : duckduckgo_search provider false fetcher =
      ⟨processResults false fetcher recs, []⟩ := by
    show duckduckgoAttempts provider false fetcher (2 + 1) 0 2 [] = _
    rw [duckduckgoAttempts_succ, h]
  have h2 := processResults_no_fetch fetcher recs
  refine ⟨h1, h2, ?_⟩
  intro e he
  rw [h1] at he
  rw [show (DDGReturn.mk (processResults false fetcher recs) []).results =
    processResults false fetcher recs from rfl, h2] at he
  rcases List.mem_map.mp he with ⟨r, _, rfl⟩
  rfl

/-- Witness for C10: a provider returning one complete record and three
incomplete ones (missing or empty `href`, `title`, `body`). -/
theorem duckduckgo_no_fetch_raw_is_snippet_witness :
    duckduckgo_search
        (fun _ => .ok [⟨some "t", some "u", some "b"⟩, ⟨none, some "u2", some "b2"⟩,
          ⟨some "t3", some "", some "b3"⟩, ⟨some "t4", some "u4", none⟩])
        false (fun _ => .error "no fetcher") =
      ⟨processResults false (fun _ => .error "no fetcher")
        [⟨some "t", some "u", some "b"⟩, ⟨none, some "u2", some "b2"⟩,
          ⟨some "t3", some "", some "b3"⟩, ⟨some "t4", some "u4", none⟩], []⟩ ∧
    processResults false (fun _ => .error "no fetcher")
        [⟨some "t", some "u", some "b"⟩, ⟨none, some "u2", some "b2"⟩,
          ⟨some "t3", some "", some "b3"⟩, ⟨some "t4", some "u4", none⟩] =
      (([⟨some "t", some "u", some "b"⟩, ⟨none, some "u2", some "b2"⟩,
          ⟨some "t3", some "", some "b3"⟩, ⟨some "t4", some "u4", none⟩] :
        List DDGRecord).filter recordComplete).map completeToSource ∧
    ∀ e ∈ (duckduckgo_search
        (fun _ => .ok [⟨some "t", some "u", some "b"⟩, ⟨none, some "u2", some "b2"⟩,
          ⟨some "t3", some "", some "b3"⟩, ⟨some "t4", some "u4", none⟩])
        false (fun _ => .error "no fetcher")).results,
      e.raw_content = some e.content :=
  duckduckgo_no_fetch_raw_is_snippet _ _ _ rfl

end Assistant
